import Mathlib

/-!
Verification development for the SciSciNet Dartmouth chat dashboard frontend
(`src/App.jsx`). The session state machine, CSV export codec, quick-load
entry points, selection channel and render session are embedded shallowly:
React state updates become explicit record updates on a session-state
record, the asynchronous fetch becomes an explicit outcome parameter, and
the Vega view lifecycle becomes a small event-step machine with a
generation counter (the `canceled` flag of each effect run corresponds to
"a later mount has bumped the generation").
-/

namespace SciSci

/-- JavaScript scalar values as they appear in dataset records, selection
payloads and signal emissions. Objects are modelled separately as `Row`. -/
inductive JValue where
  | null
  | undefined
  | str (s : String)
  | num (n : Int)
  | bool (b : Bool)
deriving DecidableEq

/-- A JS object with string keys in insertion order (dataset record or
selection payload). -/
abbrev Row := List (String × JValue)

/-- JS truthiness of a scalar value (`!v` / `v ? _ : _`). -/
def jsTruthy : JValue → Bool
  | .null => false
  | .undefined => false
  | .str s => !s.isEmpty
  | .num n => n != 0
  | .bool b => b

/-- JS `String(v)` conversion for scalar values. -/
def jsInterp : JValue → String
  | .null => "null"
  | .undefined => "undefined"
  | .str s => s
  | .num n => toString n
  | .bool b => if b then "true" else "false"

/-- JS property access `r[k]`: the first binding for `k`, else `undefined`. -/
def rowGet (r : Row) (k : String) : JValue :=
  match r.find? (fun p => p.1 == k) with
  | some p => p.2
  | none => .undefined

/-- From `escapeCsvCell`: the string a cell value is coerced to before
escaping (`v === null || v === undefined ? "" : String(v)`). -/
def jsCellString : JValue → String
  | .null => ""
  | .undefined => ""
  | .str s => s
  | .num n => toString n
  | .bool b => if b then "true" else "false"

/-- From `escapeCsvCell`: `s.replace(/"/g, '""')`, doubling each quote. -/
def csvDoubleQuotes (s : String) : String :=
  String.mk (s.data.flatMap fun c => if c == '"' then ['"', '"'] else [c])

/-- `escapeCsvCell` from `src/App.jsx`: empty string for null/undefined;
quote the cell and double embedded quotes when it matches `/[",\n\r]/`. -/
def escapeCsvCell (v : JValue) : String :=
  let s := jsCellString v
  if s.data.any (fun c => c == '"' || c == ',' || c == '\n' || c == '\r') then
    "\"" ++ csvDoubleQuotes s ++ "\""
  else s

/-- From `toCsv`: one data line, rendering record `r` against `headers`
(`headers.map((h) => escapeCsvCell(r[h])).join(",")`). -/
def csvCells (headers : List String) (r : Row) : String :=
  String.intercalate "," (headers.map fun h => escapeCsvCell (rowGet r h))

/-- From `toCsv`: the header line (`headers.map(escapeCsvCell).join(",")`). -/
def csvHeaderLine (headers : List String) : String :=
  String.intercalate "," (headers.map fun h => escapeCsvCell (.str h))

/-- From `toCsv`: the `lines` array — header line from `Object.keys(rows[0])`,
then one line per record of `rows` (the first record included). -/
def csvLines (rows : List Row) : List String :=
  match rows with
  | [] => []
  | r0 :: _ =>
      csvHeaderLine (r0.map Prod.fst) :: rows.map (csvCells (r0.map Prod.fst))

/-- `toCsv` from `src/App.jsx`: empty output for an empty dataset, else the
lines joined with `"\n"`. -/
def toCsv (rows : List Row) : String :=
  match rows with
  | [] => ""
  | _ => String.intercalate "\n" (csvLines rows)

/-- The structured chart plan exchanged with the agent. -/
structure Plan where
  chart_type : String
  year_from : Int
  year_to : Int
  doctype : Option String
  field_level : Int
  field_score_min : Rat
  top_k : Int
  color : Option String
  mark : String
  compare : Bool
  compare_year_from : Option Int
  compare_year_to : Option Int
deriving DecidableEq

/-- JS number printing for the rationals that stand in for JSON numbers
(decimal expansion when the denominator divides a power of ten). -/
def jsRatString (q : Rat) : String :=
  let sign := if q.num < 0 then "-" else ""
  let n := q.num.natAbs
  let d := q.den
  if d = 1 then sign ++ toString n
  else
    match (List.range 7).find? (fun k => 10 ^ k % d == 0) with
    | some k =>
        let scaled := n * (10 ^ k / d)
        let ip := scaled / 10 ^ k
        let fp := scaled % 10 ^ k
        let fpStr := toString fp
        let pad := String.mk (List.replicate (k - fpStr.length) '0')
        sign ++ toString ip ++ "." ++ pad ++ fpStr
    | none => sign ++ toString n ++ "/" ++ toString d

/-- JS interpolation of a nullable integer plan field. -/
def jsOptIntString : Option Int → String
  | none => "null"
  | some n => toString n

/-- A chat turn message (`{role, text}` in `messages`). -/
inductive Role where
  | user
  | assistant
deriving DecidableEq

structure ChatMsg where
  role : Role
  text : String
deriving DecidableEq

/-- Response body of `POST /api/chat`; every field may be absent. -/
structure ChatResponse where
  answer : Option String
  vegaLiteSpec : Option String
  data : Option (List Row)
  plan : Option Plan
deriving DecidableEq

/-- Response body of the quick-chart endpoints. A `plan` field, if the
server were to send one, is ignored by the client. -/
structure ChartResponse where
  vegaLiteSpec : Option String
  data : Option (List Row)
  plan : Option Plan
deriving DecidableEq

/-- Settlement of one `fetch` through `post`: success body, non-2xx status
(`throw new Error("HTTP " + status)`), or a network-level failure. -/
inductive FetchOutcome (α : Type) where
  | ok (body : α)
  | httpError (status : Nat)
  | networkError (msg : String)
deriving DecidableEq

def isFailure {α : Type} : FetchOutcome α → Bool
  | .ok _ => false
  | .httpError _ => true
  | .networkError _ => true

/-- The message `String(e?.message || e)` stored by the catch blocks. -/
def failureMsg {α : Type} : FetchOutcome α → String
  | .ok _ => ""
  | .httpError s => "HTTP " ++ toString s
  | .networkError m => m

/-- The App component's session state: the React state hooks of `App`. -/
structure SessionState where
  spec : Option String
  err : String
  data : Option (List Row)
  plan : Option Plan
  selected : Option Row
  input : String
  messages : List ChatMsg
  sending : Bool
deriving DecidableEq

/-- The initial session state (the `useState` initializers of `App`). -/
def initialState : SessionState :=
  { spec := none
    err := ""
    data := none
    plan := none
    selected := none
    input := "show me the number of papers by year from 2020 to 2024"
    messages := []
    sending := false }

/-- The plan installed locally by `loadYearChart` on success. -/
def canonicalYearPlan : Plan :=
  { chart_type := "papers_by_year"
    year_from := 2020
    year_to := 2024
    doctype := none
    field_level := 1
    field_score_min := 3 / 10
    top_k := 25
    color := none
    mark := "bar"
    compare := false
    compare_year_from := none
    compare_year_to := none }

/-- The plan installed locally by `loadFieldChart` on success. -/
def canonicalFieldPlan : Plan :=
  { canonicalYearPlan with chart_type := "papers_by_field" }

/-- JS whitespace for `String.prototype.trim`. -/
def isJsSpace (c : Char) : Bool :=
  c == ' ' || c == '\t' || c == '\n' || c == '\r' || c == '\x0c' || c == '\x0b'

/-- JS `text.trim()`: strip leading and trailing whitespace. -/
def jsTrim (s : String) : String :=
  String.mk ((s.data.dropWhile isJsSpace).reverse.dropWhile isJsSpace).reverse

/-- `j.answer || "OK"` from the success branch of `send`. -/
def answerText : Option String → String
  | some s => if s.isEmpty then "OK" else s
  | none => "OK"

/-- The synchronous part of `send`, up to the `await post(...)`: rejected
(second component `false`) when the trimmed input is empty or a submission
is in flight; otherwise mark sending, echo the user message into the turn
history, clear the input, and clear the error banner (`post` runs
`setErr("")` before the request). -/
def sendStart (st : SessionState) : SessionState × Bool :=
  let text := jsTrim st.input
  if text.isEmpty || st.sending then (st, false)
  else
    ({ st with
        sending := true
        messages := st.messages ++ [⟨Role.user, text⟩]
        input := ""
        err := "" }, true)

/-- The continuation of `send` after the request settles: on success append
the assistant message, conditionally replace spec/data/plan (absent fields
leave state unchanged), clear the selection; on failure store the error
message. The `finally` block clears the in-flight flag either way. -/
def sendSettle (st : SessionState) (o : FetchOutcome ChatResponse) : SessionState :=
  match o with
  | .ok j =>
      { st with
        messages := st.messages ++ [⟨Role.assistant, answerText j.answer⟩]
        spec := (match j.vegaLiteSpec with | some v => some v | none => st.spec)
        data := (match j.data with | some d => some d | none => st.data)
        plan := (match j.plan with | some p => some p | none => st.plan)
        selected := none
        sending := false }
  | .httpError s => { st with err := "HTTP " ++ toString s, sending := false }
  | .networkError m => { st with err := m, sending := false }

/-- One complete run of `send` whose request (if issued) settles with `o`. -/
def send (st : SessionState) (o : FetchOutcome ChatResponse) : SessionState :=
  if (sendStart st).2 then sendSettle (sendStart st).1 o else (sendStart st).1

/-- `loadYearChart`: on success install the returned spec and data
(`j.data || null` — absent data clears the dataset), clear the selection and
install the locally-built canonical year plan; on failure store the error. -/
def loadYearChart (st : SessionState) (o : FetchOutcome ChartResponse) : SessionState :=
  match o with
  | .ok j =>
      { st with
        err := ""
        spec := j.vegaLiteSpec
        data := j.data
        selected := none
        plan := some canonicalYearPlan }
  | .httpError s => { st with err := "HTTP " ++ toString s }
  | .networkError m => { st with err := m }

/-- `loadFieldChart`: same shape as `loadYearChart`, with the canonical
field plan. -/
def loadFieldChart (st : SessionState) (o : FetchOutcome ChartResponse) : SessionState :=
  match o with
  | .ok j =>
      { st with
        err := ""
        spec := j.vegaLiteSpec
        data := j.data
        selected := none
        plan := some canonicalFieldPlan }
  | .httpError s => { st with err := "HTTP " ++ toString s }
  | .networkError m => { st with err := m }

/-- The `pick` signal handler: `!value` stores `null`, otherwise the
payload object is stored as-is (an empty object is truthy in JS). -/
def emitPick (st : SessionState) (payload : Option Row) : SessionState :=
  { st with
      selected := match payload with
                  | none => none
                  | some v => some v }

/-- `selectionSummary` (`useMemo`): `null` when nothing is selected or the
selected object has no keys, else the selected object. -/
def selectionSummary : Option Row → Option Row
  | none => none
  | some s => if s.isEmpty then none else some s

/-- `quickAskFromSelection` as a pure function from the selection summary
and plan to the new input text; `none` means the input is left unchanged
(the early `return` paths). -/
def quickAskFromSelection (sel : Option Row) (plan : Option Plan) : Option String :=
  match sel, plan with
  | some s, some p =>
      if p.chart_type = "papers_by_year" then
        let y := jsInterp (rowGet s "year")
        if jsTruthy (rowGet s "group") then
          some ("show me the number of papers by year from " ++ y ++ " to " ++ y ++
            " and compare " ++ toString p.year_from ++ "-" ++ toString p.year_to ++
            " vs " ++ jsOptIntString p.compare_year_from ++ "-" ++
            jsOptIntString p.compare_year_to)
        else
          some ("show me the number of papers by year from " ++ y ++ " to " ++ y)
      else if p.chart_type = "papers_by_field" then
        if jsTruthy (rowGet s "field") then
          some
            (if p.compare then
              "show me papers by field from " ++ toString p.year_from ++ " to " ++
                toString p.year_to ++ " and compare " ++ toString p.year_from ++ "-" ++
                toString p.year_to ++ " vs " ++ jsOptIntString p.compare_year_from ++
                "-" ++ jsOptIntString p.compare_year_to ++ ", top_k " ++
                toString p.top_k ++ ", field_score_min " ++
                jsRatString p.field_score_min ++ ", field_level " ++
                toString p.field_level
            else
              "show me papers by field from " ++ toString p.year_from ++ " to " ++
                toString p.year_to ++ ", top_k " ++ toString p.top_k ++
                ", field_score_min " ++ jsRatString p.field_score_min ++
                ", field_level " ++ toString p.field_level)
        else none
      else none
  | _, _ => none

/-- The `VegaView` mount lifecycle, with instances identified by the
generation (mount call number) that constructs them. `gen` is the latest
issued generation; a resolution for an older generation corresponds to an
effect whose `canceled` flag was set by a later run's cleanup. -/
structure RenderState where
  gen : Nat
  current : Option Nat
  published : List Nat
  finalized : List Nat
  resolved : List Nat
deriving DecidableEq

inductive REvent where
  | mount
  | resolve (g : Nat)
deriving DecidableEq

/-- One lifecycle step. `mount`: the previous effect's cleanup finalizes the
live view, publishes `null` (`onView(null)`), and the new run starts
construction under generation `gen + 1`. `resolve g`: construction for
mount `g` settles; if its token was canceled (`g < gen`) the fresh view is
finalized unused, otherwise it is stored in `viewRef` and published. -/
def rstep (st : RenderState) : REvent → RenderState
  | .mount =>
      { st with
        gen := st.gen + 1
        current := none
        finalized := match st.current with
                     | some i => st.finalized ++ [i]
                     | none => st.finalized }
  | .resolve g =>
      if g ∈ st.resolved ∨ st.gen < g then st
      else if g = st.gen then
        { st with
          resolved := st.resolved ++ [g]
          current := some g
          published := st.published ++ [g] }
      else
        { st with
          resolved := st.resolved ++ [g]
          finalized := st.finalized ++ [g] }

def runEvents (st : RenderState) : List REvent → RenderState
  | [] => st
  | e :: es => runEvents (rstep st e) es

/-- A render session before any mount. -/
def renderInit : RenderState :=
  { gen := 0, current := none, published := [], finalized := [], resolved := [] }

/-- Doubling of embedded quotes, written by plain recursion on the
character list (the spec's phrasing of the escaping rule), to be compared
with the source's `replace`-based `csvDoubleQuotes`. -/
def dupQuotesSpec : List Char → List Char
  | [] => []
  | c :: cs =>
      if c = '"' then '"' :: '"' :: dupQuotesSpec cs
      else c :: dupQuotesSpec cs

/-- A sample dataset record. -/
def sampleRow : Row := [("year", JValue.num 2020), ("count", JValue.num 5)]

/-- A session with a submission in flight. -/
def busyState : SessionState := { initialState with sending := true }

/-- A session holding a dataset, plan and selection. -/
def richState : SessionState :=
  { initialState with
      data := some [sampleRow]
      plan := some canonicalYearPlan
      selected := some sampleRow }

/-- A chat response with every optional field absent. -/
def emptyChatResponse : ChatResponse :=
  { answer := none, vegaLiteSpec := none, data := none, plan := none }

/-- A quick-chart response with every field absent. -/
def emptyChartResponse : ChartResponse :=
  { vegaLiteSpec := none, data := none, plan := none }

/-- Claim C4: every successful `loadYearChart` installs exactly the
canonical default plan (chart_type `papers_by_year`, years 2020–2024,
field_level 1, field_score_min 0.3, top_k 25, mark `bar`, compare false
with null compare bounds), built locally and independent of anything in
the server response — and `loadFieldChart` likewise with chart_type
`papers_by_field`. -/
theorem C4_quickload_determinism :
    (∀ (st : SessionState) (j : ChartResponse),
        (loadYearChart st (.ok j)).plan = some
          { chart_type := "papers_by_year", year_from := 2020, year_to := 2024,
            doctype := none, field_level := 1, field_score_min := 3 / 10,
            top_k := 25, color := none, mark := "bar", compare := false,
            compare_year_from := none, compare_year_to := none })
  ∧ (∀ (st : SessionState) (j : ChartResponse),
        (loadFieldChart st (.ok j)).plan = some
          { chart_type := "papers_by_field", year_from := 2020, year_to := 2024,
            doctype := none, field_level := 1, field_score_min := 3 / 10,
            top_k := 25, color := none, mark := "bar", compare := false,
            compare_year_from := none, compare_year_to := none }) :=
  ⟨fun _ _ => rfl, fun _ _ => rfl⟩

/-- Claim C2: submissions are single-flight. A `send` call made while a
submission is in flight is rejected with no observable effect at all; a
call that does issue a request found the session idle and marks it busy;
the flag is cleared exactly when the request settles (success or failure);
and no other session operation touches the flag. -/
theorem C2_single_flight :
    (∀ st : SessionState, st.sending = true → sendStart st = (st, false))
  ∧ (∀ st : SessionState, (sendStart st).2 = true →
        st.sending = false ∧ (sendStart st).1.sending = true)
  ∧ (∀ (st : SessionState) (o : FetchOutcome ChatResponse),
        (sendSettle st o).sending = false)
  ∧ (∀ (st : SessionState) (o : FetchOutcome ChartResponse),
        (loadYearChart st o).sending = st.sending)
  ∧ (∀ (st : SessionState) (o : FetchOutcome ChartResponse),
        (loadFieldChart st o).sending = st.sending)
  ∧ (∀ (st : SessionState) (p : Option Row), (emitPick st p).sending = st.sending) := by
  refine ⟨?_, ?_, ?_, ?_, ?_, ?_⟩
  · intro st h
    simp [sendStart, h]
  · intro st h
    by_cases hs : st.sending = true
    · simp [sendStart, hs] at h
    · by_cases he : (jsTrim st.input).isEmpty = true
      · simp [sendStart, he] at h
      · simp at hs he
        exact ⟨hs, by simp [sendStart, hs, he]⟩
  · intro st o
    cases o <;> rfl
  · intro st o
    cases o <;> rfl
  · intro st o
    cases o <;> rfl
  · intro st p
    rfl

/-- Witness for C2 at a concrete busy session. -/
theorem C2_single_flight_witness :
    busyState.sending = true ∧ sendStart busyState = (busyState, false) :=
  ⟨rfl, C2_single_flight.1 busyState rfl⟩

/-- Claim C1 counterexample: a failing chat submission does mutate the Turn
History — the user's message is appended before the request is issued and
stays there when the request fails. -/
theorem C1_counterexample :
    ¬ ((send initialState (FetchOutcome.networkError "network down")).messages
        = initialState.messages) := by
  decide

/-- Claim C1 (amended): on a failing chat submission the error is surfaced
and Plan, rendering specification, dataset and selection are left
unchanged; the Turn History gains exactly the echoed user message (no
assistant entry), the input is cleared and the in-flight flag is reset. -/
theorem C1_failure_frame (st : SessionState) (o : FetchOutcome ChatResponse)
    (hbusy : st.sending = false) (htext : (jsTrim st.input).isEmpty = false)
    (hfail : isFailure o = true) :
    (send st o).plan = st.plan
  ∧ (send st o).spec = st.spec
  ∧ (send st o).data = st.data
  ∧ (send st o).selected = st.selected
  ∧ (send st o).messages = st.messages ++ [⟨Role.user, jsTrim st.input⟩]
  ∧ (send st o).err = failureMsg o
  ∧ (send st o).sending = false := by
  cases o with
  | ok j => simp [isFailure] at hfail
  | httpError s =>
      simp [send, sendStart, sendSettle, hbusy, htext, failureMsg]
  | networkError m =>
      simp [send, sendStart, sendSettle, hbusy, htext, failureMsg]

/-- Witness for the amended C1 at a concrete failing submission. -/
theorem C1_failure_frame_witness :
    richState.sending = false ∧ (jsTrim richState.input).isEmpty = false
  ∧ isFailure (FetchOutcome.networkError (α := ChatResponse) "network down") = true
  ∧ (send richState (FetchOutcome.networkError "network down")).plan = richState.plan :=
  ⟨rfl, by decide, rfl,
    (C1_failure_frame richState (FetchOutcome.networkError "network down")
      rfl (by decide) rfl).1⟩

/-- Claim C7: every successful turn — a chat submission that actually
issued a request and succeeded, or a successful quick-load — leaves the
selection cleared, whatever was selected before. -/
theorem C7_selection_clears :
    (∀ (st : SessionState) (j : ChatResponse),
        st.sending = false → (jsTrim st.input).isEmpty = false →
        (send st (.ok j)).selected = none)
  ∧ (∀ (st : SessionState) (j : ChartResponse),
        (loadYearChart st (.ok j)).selected = none)
  ∧ (∀ (st : SessionState) (j : ChartResponse),
        (loadFieldChart st (.ok j)).selected = none) := by
  refine ⟨?_, fun _ _ => rfl, fun _ _ => rfl⟩
  intro st j hbusy htext
  simp [send, sendStart, sendSettle, hbusy, htext]

/-- Witness for C7: a concrete session with a live selection loses it on a
successful chat turn. -/
theorem C7_selection_clears_witness :
    richState.selected = some sampleRow
  ∧ (send richState (FetchOutcome.ok emptyChatResponse)).selected = none :=
  ⟨rfl, C7_selection_clears.1 richState emptyChatResponse rfl (by decide)⟩

/-- Claim C10: a successful quick-load whose response has no `data` field
clears the dataset to null, while a successful chat turn whose response has
no `data` field leaves the previous dataset in place. -/
theorem C10_data_frame :
    (∀ (st : SessionState) (j : ChartResponse), j.data = none →
        (loadYearChart st (.ok j)).data = none)
  ∧ (∀ (st : SessionState) (j : ChartResponse), j.data = none →
        (loadFieldChart st (.ok j)).data = none)
  ∧ (∀ (st : SessionState) (j : ChatResponse), j.data = none →
        st.sending = false → (jsTrim st.input).isEmpty = false →
        (send st (.ok j)).data = st.data) := by
  refine ⟨?_, ?_, ?_⟩
  · intro st j h
    simp [loadYearChart, h]
  · intro st j h
    simp [loadFieldChart, h]
  · intro st j h hbusy htext
    simp [send, sendStart, sendSettle, hbusy, htext, h]

/-- Witness for C10 at a concrete session holding a dataset: the quick-load
clears it, the chat turn keeps it. -/
theorem C10_data_frame_witness :
    emptyChartResponse.data = none
  ∧ richState.data = some [sampleRow]
  ∧ (loadYearChart richState (FetchOutcome.ok emptyChartResponse)).data = none
  ∧ (send richState (FetchOutcome.ok emptyChatResponse)).data = some [sampleRow] :=
  ⟨rfl, rfl, C10_data_frame.1 richState emptyChartResponse rfl,
    (C10_data_frame.2.2 richState emptyChatResponse rfl rfl (by decide)).trans rfl⟩

/-- Claim C8: the selection-to-query translator leaves the input channel
unchanged (returns `none`) when the selection or the plan is absent, and
when the plan's chart type is `papers_by_field` but the selection carries
no (truthy) `field` attribute; in particular a `{group: "A"}` selection on
a field chart translates to nothing. -/
theorem C8_translate_null_cases :
    (∀ p : Option Plan, quickAskFromSelection none p = none)
  ∧ (∀ s : Option Row, quickAskFromSelection s none = none)
  ∧ (∀ (s : Row) (p : Plan), p.chart_type = "papers_by_field" →
        jsTruthy (rowGet s "field") = false →
        quickAskFromSelection (some s) (some p) = none)
  ∧ quickAskFromSelection (some [("group", JValue.str "A")])
      (some canonicalFieldPlan) = none := by
  refine ⟨?_, ?_, ?_, rfl⟩
  · intro p
    cases p <;> rfl
  · intro s
    cases s <;> rfl
  · intro s p hct hfield
    simp [quickAskFromSelection, hct, hfield]

/-- Witness for C8 at the concrete selection and plan of the spec's
example. -/
theorem C8_translate_null_cases_witness :
    canonicalFieldPlan.chart_type = "papers_by_field"
  ∧ jsTruthy (rowGet [("group", JValue.str "A")] "field") = false
  ∧ quickAskFromSelection (some [("group", JValue.str "A")])
      (some canonicalFieldPlan) = none :=
  ⟨rfl, rfl,
    C8_translate_null_cases.2.2.1 [("group", JValue.str "A")] canonicalFieldPlan rfl rfl⟩

/-- Claim C9: an emission of the `pick` interaction signal publishes, as
the observable current Selection (`selectionSummary`), `none` when the
payload is absent or an empty mapping, and the payload mapping otherwise;
in particular an emission of an empty mapping yields Selection = none. -/
theorem C9_selection_normalization :
    (∀ (st : SessionState) (payload : Option Row),
        selectionSummary (emitPick st payload).selected =
          (match payload with
           | none => none
           | some m => if m = [] then none else some m))
  ∧ selectionSummary (emitPick richState (some [])).selected = none := by
  constructor
  · intro st payload
    cases payload with
    | none => rfl
    | some m => cases m <;> rfl
  · rfl

/-- `find?` skips a suffix in which nothing matches. -/
theorem find?_append_none {α : Type} (p : α → Bool) (l₁ l₂ : List α)
    (h : l₂.find? p = none) : (l₁ ++ l₂).find? p = l₁.find? p := by
  induction l₁ with
  | nil => simpa using h
  | cons a t ih =>
      by_cases hp : p a
      · simp [List.find?_cons, hp]
      · simp [List.find?_cons, hp, ih]

/-- Claim C5: the CSV header row is the keys of the first record in that
record's key order; every subsequent line renders its record against that
same header; a record missing a header key renders an empty cell; keys not
in the header are dropped; and the spec's two-record example produces
exactly `year,count` / `2020,5` / `2021,9`. -/
theorem C5_csv_header_stability :
    toCsv [[("year", JValue.num 2020), ("count", JValue.num 5)],
           [("year", JValue.num 2021), ("count", JValue.num 9)]]
      = "year,count\n2020,5\n2021,9"
  ∧ (∀ (r0 : Row) (rows : List Row),
        (csvLines (r0 :: rows)).head? = some (csvHeaderLine (r0.map Prod.fst)))
  ∧ (∀ (r0 : Row) (rows : List Row) (i : Nat),
        (csvLines (r0 :: rows))[i + 1]? =
          ((r0 :: rows)[i]?).map (csvCells (r0.map Prod.fst)))
  ∧ (∀ (r : Row) (k : String), r.find? (fun p => p.1 == k) = none →
        escapeCsvCell (rowGet r k) = "")
  ∧ (∀ (headers : List String) (r extra : Row),
        (∀ p ∈ extra, p.1 ∉ headers) →
        csvCells headers (r ++ extra) = csvCells headers r) := by
  refine ⟨by decide, fun r0 rows => rfl, ?_, ?_, ?_⟩
  · intro r0 rows i
    have hline : (csvLines (r0 :: rows))[i + 1]? =
        ((r0 :: rows).map (csvCells (r0.map Prod.fst)))[i]? := by
      simp [csvLines]
    rw [hline, List.getElem?_map]
  · intro r k h
    unfold rowGet
    rw [h]
    rfl
  · intro headers r extra hextra
    unfold csvCells
    congr 1
    apply List.map_congr_left
    intro h hh
    have hnone : extra.find? (fun p => p.1 == h) = none := by
      rw [List.find?_eq_none]
      intro p hp
      simp only [beq_iff_eq]
      intro heq
      exact hextra p hp (heq ▸ hh)
    unfold rowGet
    rw [find?_append_none _ _ _ hnone]

/-- Witness for C5: a record without the `count` key renders it as an
empty cell, and a key outside the header is dropped. -/
theorem C5_csv_header_stability_witness :
    ([("year", JValue.num 2020)] : Row).find? (fun p => p.1 == "count") = none
  ∧ escapeCsvCell (rowGet [("year", JValue.num 2020)] "count") = ""
  ∧ csvCells ["year"]
      ([("year", JValue.num 2020)] ++ [("extra", JValue.num 1)]) =
      csvCells ["year"] [("year", JValue.num 2020)] :=
  ⟨rfl,
    C5_csv_header_stability.2.2.2.1 [("year", JValue.num 2020)] "count" rfl,
    C5_csv_header_stability.2.2.2.2 ["year"] [("year", JValue.num 2020)]
      [("extra", JValue.num 1)] (by decide)⟩

/-- The source's `replace`-based quote doubling agrees with the recursive
spec-side formulation. -/
theorem csvDoubleQuotes_eq (s : String) :
    csvDoubleQuotes s = String.mk (dupQuotesSpec s.data) := by
  unfold csvDoubleQuotes
  congr 1
  induction s.data with
  | nil => rfl
  | cons c cs ih =>
      by_cases hc : c = '"'
      · simp [List.flatMap_cons, dupQuotesSpec, hc]
        simpa using ih
      · simp [List.flatMap_cons, dupQuotesSpec, hc]
        simpa using ih

/-- Claim C6: a cell is quoted exactly when it contains a comma, a double
quote, or a line break, with embedded quotes doubled; null and undefined
render as the empty string; the spec's example cell encodes as stated. -/
theorem C6_csv_escaping :
    escapeCsvCell (JValue.str "a,\"b\"\nc") = "\"a,\"\"b\"\"\nc\""
  ∧ escapeCsvCell JValue.null = ""
  ∧ escapeCsvCell JValue.undefined = ""
  ∧ (∀ s : String, escapeCsvCell (JValue.str s) =
      if ',' ∈ s.data ∨ '"' ∈ s.data ∨ '\n' ∈ s.data ∨ '\r' ∈ s.data then
        "\"" ++ String.mk (dupQuotesSpec s.data) ++ "\""
      else s) := by
  refine ⟨by decide, rfl, rfl, ?_⟩
  intro s
  have hcond :
      (s.data.any fun c => c == '"' || c == ',' || c == '\n' || c == '\r') = true
        ↔ (',' ∈ s.data ∨ '"' ∈ s.data ∨ '\n' ∈ s.data ∨ '\r' ∈ s.data) := by
    simp only [List.any_eq_true, Bool.or_eq_true, beq_iff_eq]
    constructor
    · rintro ⟨c, hc, ((rfl | rfl) | rfl) | rfl⟩ <;> tauto
    · rintro (h | h | h | h) <;> exact ⟨_, h, by simp⟩
  by_cases h : ',' ∈ s.data ∨ '"' ∈ s.data ∨ '\n' ∈ s.data ∨ '\r' ∈ s.data
  · rw [if_pos h]
    show (if (s.data.any fun c => c == '"' || c == ',' || c == '\n' || c == '\r') = true
        then "\"" ++ csvDoubleQuotes s ++ "\"" else s) = _
    rw [if_pos (hcond.mpr h), csvDoubleQuotes_eq]
  · rw [if_neg h]
    show (if (s.data.any fun c => c == '"' || c == ',' || c == '\n' || c == '\r') = true
        then "\"" ++ csvDoubleQuotes s ++ "\"" else s) = s
    rw [if_neg (fun hc => h (hcond.mp hc))]

/-- A generation strictly below the mount counter is never published, is
never the current instance, and stays below the counter, across any single
lifecycle step. -/
theorem rstep_preserves_stale (g : Nat) (st : RenderState) (e : REvent)
    (h1 : g ∉ st.published) (h2 : g < st.gen) (h3 : st.current ≠ some g) :
    g ∉ (rstep st e).published ∧ g < (rstep st e).gen ∧
      (rstep st e).current ≠ some g := by
  cases e with
  | mount =>
      refine ⟨h1, ?_, ?_⟩
      · show g < st.gen + 1
        omega
      · show (none : Option Nat) ≠ some g
        simp
  | resolve g2 =>
      by_cases ha : g2 ∈ st.resolved ∨ st.gen < g2
      · have hs : rstep st (.resolve g2) = st := by
          simp only [rstep, if_pos ha]
        rw [hs]
        exact ⟨h1, h2, h3⟩
      · by_cases hb : g2 = st.gen
        · have hs : rstep st (.resolve g2) =
              { st with
                resolved := st.resolved ++ [g2]
                current := some g2
                published := st.published ++ [g2] } := by
            simp only [rstep, if_neg ha, if_pos hb]
          rw [hs]
          subst hb
          refine ⟨?_, h2, ?_⟩
          · intro hm
            rcases List.mem_append.mp hm with hm | hm
            · exact h1 hm
            · simp at hm
              omega
          · intro hm
            have hg : st.gen = g := Option.some.inj hm
            omega
        · have hs : rstep st (.resolve g2) =
              { st with
                resolved := st.resolved ++ [g2]
                finalized := st.finalized ++ [g2] } := by
            simp only [rstep, if_neg ha, if_neg hb]
          rw [hs]
          exact ⟨h1, h2, h3⟩

/-- The suppression is preserved along any sequence of lifecycle events. -/
theorem stale_suppressed (g : Nat) (evs : List REvent) :
    ∀ st : RenderState, g ∉ st.published → g < st.gen → st.current ≠ some g →
      g ∉ (runEvents st evs).published ∧ (runEvents st evs).current ≠ some g := by
  induction evs with
  | nil =>
      intro st h1 h2 h3
      exact ⟨h1, h3⟩
  | cons e es ih =>
      intro st h1 h2 h3
      obtain ⟨p1, p2, p3⟩ := rstep_preserves_stale g st e h1 h2 h3
      exact ih _ p1 p2 p3

/-- Two consecutive mounts from any state, written as an explicit record. -/
theorem double_mount_eq (st : RenderState) :
    rstep (rstep st .mount) .mount =
      { st with
        gen := st.gen + 2
        current := none
        finalized := (match st.current with
                      | some i => st.finalized ++ [i]
                      | none => st.finalized) } := by
  obtain ⟨gen, cur, pub, fin, res⟩ := st
  cases cur <;> rfl

/-- Claim C3: when a second mount M2 is issued before M1's construction
resolves, M1's freshly constructed instance is finalized unused and is
never published as the current instance under any continuation of the
lifecycle, and the instance published after both constructions resolve is
M2's. -/
theorem C3_last_mount_wins (st : RenderState)
    (hres : ∀ g ∈ st.resolved, g ≤ st.gen)
    (hpub : ∀ g ∈ st.published, g ≤ st.gen) :
    (runEvents (rstep (rstep st .mount) .mount)
        [.resolve (st.gen + 2), .resolve (st.gen + 1)]).current = some (st.gen + 2)
  ∧ (st.gen + 1) ∈ (runEvents (rstep (rstep st .mount) .mount)
        [.resolve (st.gen + 2), .resolve (st.gen + 1)]).finalized
  ∧ (st.gen + 1) ∉ (runEvents (rstep (rstep st .mount) .mount)
        [.resolve (st.gen + 2), .resolve (st.gen + 1)]).published
  ∧ (∀ evs : List REvent,
        (st.gen + 1) ∉ (runEvents (rstep (rstep st .mount) .mount) evs).published
      ∧ (runEvents (rstep (rstep st .mount) .mount) evs).current ≠
          some (st.gen + 1)) := by
  have hm2 : st.gen + 2 ∉ st.resolved := fun hm => by
    have := hres _ hm
    omega
  have hm1 : st.gen + 1 ∉ st.resolved := fun hm => by
    have := hres _ hm
    omega
  have hp1 : st.gen + 1 ∉ st.published := fun hm => by
    have := hpub _ hm
    omega
  have hc1 : ¬(st.gen + 2 ∈ st.resolved ∨ st.gen + 2 < st.gen + 2) := by
    rintro (hm | hm)
    · exact hm2 hm
    · omega
  have hc2 : ¬(st.gen + 1 ∈ st.resolved ++ [st.gen + 2] ∨ st.gen + 2 < st.gen + 1) := by
    rintro (hm | hm)
    · rcases List.mem_append.mp hm with hm | hm
      · exact hm1 hm
      · simp at hm
    · omega
  have hne : ¬(st.gen + 1 = st.gen + 2) := by omega
  have hs1 : rstep
      ({ st with
         gen := st.gen + 2
         current := none
         finalized := (match st.current with
                       | some i => st.finalized ++ [i]
                       | none => st.finalized) } : RenderState)
      (.resolve (st.gen + 2)) =
      { gen := st.gen + 2
        current := some (st.gen + 2)
        published := st.published ++ [st.gen + 2]
        finalized := (match st.current with
                      | some i => st.finalized ++ [i]
                      | none => st.finalized)
        resolved := st.resolved ++ [st.gen + 2] } := by
    simp only [rstep, if_neg hc1, if_pos rfl]
    simp
  have hkey : runEvents (rstep (rstep st .mount) .mount)
      [.resolve (st.gen + 2), .resolve (st.gen + 1)] =
      { gen := st.gen + 2
        current := some (st.gen + 2)
        published := st.published ++ [st.gen + 2]
        finalized := (match st.current with
                      | some i => st.finalized ++ [i]
                      | none => st.finalized) ++ [st.gen + 1]
        resolved := (st.resolved ++ [st.gen + 2]) ++ [st.gen + 1] } := by
    rw [double_mount_eq]
    simp only [runEvents]
    rw [hs1]
    simp only [rstep, if_neg hc2, if_neg hne]
  refine ⟨?_, ?_, ?_, ?_⟩
  · rw [hkey]
  · rw [hkey]
    simp
  · rw [hkey]
    simp only [List.mem_append, List.mem_singleton]
    rintro (hm | hm)
    · exact hp1 hm
    · omega
  · intro evs
    apply stale_suppressed
    · rw [double_mount_eq]
      exact hp1
    · rw [double_mount_eq]
      show st.gen + 1 < st.gen + 2
      omega
    · rw [double_mount_eq]
      simp

/-- Witness for C3 from the freshly initialized render session: mount 1,
mount 2, resolve 2, resolve 1 — instance 2 is published, instance 1 is
finalized and never published. -/
theorem C3_last_mount_wins_witness :
    (∀ g ∈ renderInit.resolved, g ≤ renderInit.gen)
  ∧ (runEvents (rstep (rstep renderInit .mount) .mount)
        [.resolve 2, .resolve 1]).current = some 2
  ∧ 1 ∈ (runEvents (rstep (rstep renderInit .mount) .mount)
        [.resolve 2, .resolve 1]).finalized
  ∧ 1 ∉ (runEvents (rstep (rstep renderInit .mount) .mount)
        [.resolve 2, .resolve 1]).published := by
  have h := C3_last_mount_wins renderInit (by simp [renderInit]) (by simp [renderInit])
  exact ⟨by simp [renderInit], h.1, h.2.1, h.2.2.1⟩

end SciSci
